import Mathlib

/-!
Verification of the synchronization protocol of the GoB bridge between a
mesh editor (gob_bl.py, "Blender side") and a texturing application
(gob_sp.py, "Substance Painter side").

The two Python modules communicate through JSON files in a shared bridge
root.  This development shallowly embeds the protocol-relevant functions:

* manifests and active-session records are JSON dictionaries; they are
  modelled as association lists of scalar JSON values (the protocol
  functions verified here only ever read scalar fields),
* filesystem paths are lists of path components (mirroring pathlib
  semantics of `/`, `.parent` and `.name`),
* filesystem and host-application lookups that a function performs are
  passed in as explicit environment records, one field per Python helper,
* `os.path.abspath ∘ os.path.expanduser` is an uninterpreted
  process-stable function `A : String → String`,
* Python truthiness, `str(...)` conversion and `dict.get` defaulting to
  `None` are modelled explicitly.

Every definition follows the corresponding Python function line by line;
the Python source is cited in the doc comments.
-/

/-- Scalar JSON value as stored in the bridge's JSON dictionaries.  The
protocol fields read by the functions verified here (`source`,
`auto_import`, `auto_import_at`, `timestamp`, `force_new_project`,
`force_new_token`, `sp_project_file`, `sp_project_path`, `project`,
`blender_file`) are all scalars. -/
inductive JVal where
  | null
  | bool (b : Bool)
  | num (n : Int)
  | str (s : String)
  deriving DecidableEq, Repr

/-- Python truthiness of a scalar JSON value: `None`, `False`, `0` and
`""` are falsy, everything else is truthy. -/
def truthy : JVal → Bool
  | .null => false
  | .bool b => b
  | .num n => n != 0
  | .str s => s != ""

/-- Python `str(...)` of a scalar JSON value. -/
def pyStr : JVal → String
  | .null => "None"
  | .bool true => "True"
  | .bool false => "False"
  | .num n => toString n
  | .str s => s

/-- Python `isinstance(value, (int, float))` view of a scalar JSON value:
booleans are ints in Python, so `True`/`False` count as `1`/`0`;
non-numbers give `none`. -/
def asPyNumber : JVal → Option Int
  | .bool b => some (if b then 1 else 0)
  | .num n => some n
  | _ => none

/-- Python `a or b` on scalar JSON values: `b` when `a` is falsy. -/
def pyOr (a b : JVal) : JVal :=
  if truthy a then a else b

/-- A JSON dictionary (a manifest, an active-session record, ...):
association list with the first binding of a key authoritative. -/
abbrev Manifest := List (String × JVal)

/-- Python `dict.get(key)`: value of the first binding of `key`, or
`None` when absent. -/
def pyGet (m : Manifest) (k : String) : JVal :=
  match m with
  | [] => .null
  | (k', v) :: rest => if k' = k then v else pyGet rest k

/-- Python `dict[key] = value`: replace the first binding of `key`,
appending a new binding when the key is absent (insertion order
semantics of Python dicts). -/
def pySet (m : Manifest) (k : String) (v : JVal) : Manifest :=
  match m with
  | [] => [(k, v)]
  | (k', v') :: rest => if k' = k then (k, v) :: rest else (k', v') :: pySet rest k v

/-- `sanitize_name` (gob_sp.py:450, gob_bl.py:162): keep ASCII
alphanumerics, `-` and `_`, replace everything else by `_`, strip
leading/trailing underscores, fall back to `"untitled"`. -/
def sanitize_name (name : String) : String :=
  if name = "" then "untitled"
  else
    let safe := name.data.map fun ch =>
      if ch.toNat < 128 && (ch.isAlphanum || ch = '-' || ch = '_') then ch else '_'
    let stripped := ((safe.dropWhile (· = '_')).reverse.dropWhile (· = '_')).reverse
    if stripped = [] then "untitled" else String.mk stripped

/-- `normalize_path` (gob_sp.py:793, gob_bl.py:175): empty input maps to
`""`, otherwise `os.path.abspath(os.path.expanduser(str(path)))`, which
is the uninterpreted process-stable function `A`. -/
def normalize_path (A : String → String) (path : String) : String :=
  if path = "" then "" else A path

/-- Python `str.lower()`, modelled character-wise. -/
def pyLower (s : String) : String :=
  String.mk (s.data.map Char.toLower)

/-- `normalize_path_key` (gob_sp.py:802, gob_bl.py:184): lower-cased
normalized path, used as the key of every path-indexed map. -/
def normalize_path_key (A : String → String) (path : String) : String :=
  pyLower (normalize_path A path)

/-- `paths_match` (gob_sp.py:896, gob_bl.py:478): two paths are the same
document iff both are non-empty and their normalized lower-cased forms
coincide. -/
def paths_match (A : String → String) (left right : String) : Bool :=
  if left = "" || right = "" then false
  else pyLower (normalize_path A left) == pyLower (normalize_path A right)

/-- `PROJECT_META_DIRNAME` (gob_sp.py:25, gob_bl.py:39). -/
def PROJECT_META_DIRNAME : String := ".gob_meta"

/-- `project_dir_from_manifest_path` (gob_sp.py:338, gob_bl.py:283): the
project directory owning a manifest file is the manifest's parent
directory, or the grandparent when the parent is the `.gob_meta`
metadata subfolder. -/
def project_dir_from_manifest_path (manifest_path : List String) : List String :=
  let parent := manifest_path.dropLast
  if parent.getLast? = some PROJECT_META_DIRNAME then parent.dropLast else parent

/-- `write_manifest` (gob_sp.py:1262) performs a whole-file overwrite;
a write effect is recorded as the pair of target path and written data. -/
def write_manifest (path : List String) (data : Manifest) : List String × Manifest :=
  (path, data)

/-- `clear_auto_import_flag` (gob_sp.py:4192): when the path is present
and the manifest has a truthy `auto_import`, set `auto_import` to
`False` and rewrite the manifest file; otherwise perform no write.  The
result is `some` write effect or `none`. -/
def clear_auto_import_flag (manifest_path : Option (List String)) (manifest : Manifest) :
    Option (List String × Manifest) :=
  match manifest_path with
  | none => none
  | some path =>
      if manifest = [] || !truthy (pyGet manifest "auto_import") then none
      else some (write_manifest path (pySet manifest "auto_import" (.bool false)))

/-- Result of attempting to read a manifest file, as distinguished by
the Python exception classes that `open` + `json.load` can raise:
the file may be missing (`FileNotFoundError ⊆ OSError`), unreadable
(`PermissionError`/`IsADirectoryError` ⊆ `OSError`), may hold bytes
that are not valid UTF-8 (reading the text-mode handle raises
`UnicodeDecodeError`, which is a `ValueError`, not an `OSError` and not
a `json.JSONDecodeError`), or may hold decodable text whose JSON parse
yields `some` value or fails (`json.JSONDecodeError`). -/
inductive FileReadResult where
  | missing
  | ioError
  | invalidUtf8
  | jsonText (parsed : Option JVal)
  deriving DecidableEq, Repr

/-- Python exception escaping a function. -/
inductive PyExc where
  | unicodeDecodeError
  deriving DecidableEq, Repr

/-- `read_manifest` (gob_sp.py:1267, gob_bl.py:672): `try: json.load(open(path))
except (OSError, json.JSONDecodeError): return None`.  `OSError` covers
missing and unreadable files and `JSONDecodeError` covers malformed
JSON text, but a file whose bytes are not valid UTF-8 raises
`UnicodeDecodeError`, which neither handler catches, so it escapes. -/
def read_manifest : FileReadResult → Except PyExc (Option JVal)
  | .missing => .ok none
  | .ioError => .ok none
  | .invalidUtf8 => .error .unicodeDecodeError
  | .jsonText parsed => .ok parsed

/-- `ACTIVE_BLENDER_INFO_MAX_AGE` (gob_sp.py:36) and
`ACTIVE_SP_INFO_MAX_AGE` (gob_bl.py:45): heartbeat staleness window. -/
def ACTIVE_INFO_MAX_AGE : Int := 120

/-- An active-session heartbeat record as produced by
`read_active_blender_info` (gob_sp.py:1203): the numeric timestamp
(`0` after the function's normalization of missing or unparsable
timestamps with no recoverable file mtime) plus its payload. -/
structure ActiveInfo where
  timestamp : Int
  blender_file : Option String
  project_dir : Option (List String)
  project_name : Option String
  deriving DecidableEq, Repr

/-- Accumulator loop of `find_active_blender_info` (gob_sp.py:1229) and
of the structurally identical `find_active_sp_project_info`
(gob_bl.py:712).  Each list element is the read result at one
candidate heartbeat location (`none` covers a missing or unreadable
file).  A record is skipped when `max_age and ts and now - ts > max_age`
(Python truthiness: the staleness filter is bypassed for a zero
timestamp), and the surviving record with the strictly largest
timestamp, starting from `best_time = 0.0`, wins. -/
def find_active_loop (now max_age : Int) :
    List (Option ActiveInfo) → Option ActiveInfo → Int → Option ActiveInfo
  | [], best, _ => best
  | none :: rest, best, best_time => find_active_loop now max_age rest best best_time
  | some info :: rest, best, best_time =>
      let ts := info.timestamp
      if max_age != 0 && ts != 0 && decide (now - ts > max_age) then
        find_active_loop now max_age rest best best_time
      else if ts > best_time then
        find_active_loop now max_age rest (some info) ts
      else
        find_active_loop now max_age rest best best_time

/-- `find_active_blender_info` (gob_sp.py:1229): scan the heartbeat
locations, discard stale records, return the freshest survivor. -/
def find_active_blender_info (entries : List (Option ActiveInfo)) (now : Int)
    (max_age : Int := ACTIVE_INFO_MAX_AGE) : Option ActiveInfo :=
  find_active_loop now max_age entries none 0

/-- Python `str.strip()`: remove leading and trailing whitespace. -/
def pyStrip (s : String) : String :=
  String.mk (((s.data.dropWhile Char.isWhitespace).reverse.dropWhile
    Char.isWhitespace).reverse)

/-- `manifest_force_new_token` (gob_sp.py:4257): the manifest's
`force_new_token` field, stringified and stripped when truthy, else
`""`. -/
def manifest_force_new_token (m : Manifest) : String :=
  let token := pyGet m "force_new_token"
  if truthy token then pyStrip (pyStr token) else ""

/-- `should_accept_force_new_manifest` (gob_sp.py:4270).  `ownToken` is
the module global `_force_new_token` (the receiving instance's
launch-time token, `""` when absent) and `isOpen` is
`sp.project.is_open()`.  A manifest with a non-empty token is accepted
when the own token matches, or else exactly when no project is open;
a manifest without a token is accepted exactly when no project is
open. -/
def should_accept_force_new_manifest (ownToken : String) (isOpen : Bool)
    (m : Manifest) : Bool :=
  let token := manifest_force_new_token m
  if token != "" then
    if ownToken != "" && token == ownToken then true
    else !isOpen
  else !isOpen

/-- Association-list upsert mirroring a Python dict store. -/
def assocSet (l : List (String × String)) (k v : String) : List (String × String) :=
  match l with
  | [] => [(k, v)]
  | (k', v') :: rest => if k' = k then (k, v) :: rest else (k', v') :: assocSet rest k v

/-- Association-list read mirroring Python `dict.get(key)` on a map of
strings. -/
def assocGet (l : List (String × String)) (k : String) : Option String :=
  match l with
  | [] => none
  | (k', v) :: rest => if k' = k then some v else assocGet rest k

/-- The link registry data: the two maps of the registry JSON file,
`sp_to_blender` and `blender_to_sp` (spec interface
`{"sp_to_blender": {...}, "blender_to_sp": {...}}`). -/
structure Registry where
  sp_to_blender : List (String × String)
  blender_to_sp : List (String × String)
  deriving DecidableEq, Repr

/-- The empty registry, as produced by `load_link_registry`
(gob_sp.py:831) when no registry file exists. -/
def Registry.empty : Registry := ⟨[], []⟩

/-- `update_link_registry` (gob_sp.py:866): upsert
`sp_to_blender[key(sp_project_file)] = blender_file` and, unless
`update_blender_link` is suppressed,
`blender_to_sp[key(blender_file)] = sp_project_file`; a missing path
makes the call a no-op.  The Blender-side `update_link_registry`
(gob_bl.py:459) is this function with `update_blender_link = true`. -/
def update_link_registry (A : String → String) (data : Registry)
    (sp_project_file blender_file : String) (update_blender_link : Bool := true) :
    Registry :=
  if sp_project_file = "" || blender_file = "" then data
  else
    let sp_key := normalize_path_key A sp_project_file
    let bl_key := normalize_path_key A blender_file
    let sp_map := assocSet data.sp_to_blender sp_key blender_file
    let bl_map :=
      if update_blender_link then assocSet data.blender_to_sp bl_key sp_project_file
      else data.blender_to_sp
    ⟨sp_map, bl_map⟩

/-- Forward lookup `registry.get("sp_to_blender", {}).get(normalize_path_key(p))`
as performed by `read_linked_blender_file` (gob_sp.py:949). -/
def lookup_sp_to_blender (A : String → String) (data : Registry) (p : String) :
    Option String :=
  assocGet data.sp_to_blender (normalize_path_key A p)

/-- Backward lookup `registry.get("blender_to_sp", {}).get(normalize_path_key(p))`
as performed by `resolve_primary_sp_project_for_blender` (gob_sp.py:988). -/
def lookup_blender_to_sp (A : String → String) (data : Registry) (p : String) :
    Option String :=
  assocGet data.blender_to_sp (normalize_path_key A p)

/-- Parse state of one bridge-root hint file, distinguishing the cases
of `read_bridge_root_hint` (gob_sp.py:255): the file may be absent,
unreadable or malformed, not a JSON object, or an object whose
`bridge_root` entry is the given string (`""` models a falsy or absent
entry). -/
inductive HintState where
  | absent
  | unreadable
  | notDict
  | record (root : String)
  deriving DecidableEq, Repr

/-- `read_bridge_root_hint` (gob_sp.py:255): try the per-user default
hint location first, then the shared cross-user location; the first
location that exists, parses to a dict and carries a truthy
`bridge_root` wins, with `expanduser` applied to the recorded root. -/
def read_bridge_root_hint (expand : String → String) (perUser shared : HintState) :
    Option String :=
  match perUser with
  | .record root => if root != "" then some (expand root) else
      match shared with
      | .record root' => if root' != "" then some (expand root') else none
      | _ => none
  | _ =>
      match shared with
      | .record root' => if root' != "" then some (expand root') else none
      | _ => none

/-- Inputs of the texturing side's `get_bridge_root` (gob_sp.py:507):
the `GOB_SP_BRIDGE_DIR` environment value (`none` when unset, `some ""`
falsy), the parse state of the two hint locations, the computed
platform default `default_bridge_dir()`, and `expanduser`. -/
structure SpRootEnv where
  envVar : Option String
  perUserHint : HintState
  sharedHint : HintState
  defaultDir : String
  expand : String → String

/-- `get_bridge_root` (gob_sp.py:507): environment override first, then
the hint file, then the expanded platform default. -/
def sp_get_bridge_root (e : SpRootEnv) : String :=
  match e.envVar with
  | some s => if s ≠ "" then e.expand s else
      match read_bridge_root_hint e.expand e.perUserHint e.sharedHint with
      | some hint => hint
      | none => e.expand e.defaultDir
  | none =>
      match read_bridge_root_hint e.expand e.perUserHint e.sharedHint with
      | some hint => hint
      | none => e.expand e.defaultDir

/-- Inputs of the mesh-editor side's `get_bridge_root` (gob_bl.py:584):
the environment value, the add-on preference `prefs.bridge_dir`
(`none` models `prefs` being `None`, `some ""` a falsy preference), and
the computed platform default. -/
structure BlRootEnv where
  envVar : Option String
  prefsBridgeDir : Option String
  defaultDir : String
  expand : String → String

/-- `get_bridge_root` (gob_bl.py:584): environment override first, then
`prefs.bridge_dir` when truthy, then the platform default; no hint
file is consulted on this side. -/
def bl_get_bridge_root (e : BlRootEnv) : String :=
  match e.envVar with
  | some s => if s ≠ "" then e.expand s else
      e.expand (match e.prefsBridgeDir with
        | some p => if p ≠ "" then p else e.defaultDir
        | none => e.defaultDir)
  | none =>
      e.expand (match e.prefsBridgeDir with
        | some p => if p ≠ "" then p else e.defaultDir
        | none => e.defaultDir)

/-- `get_manifest_blender_file` (gob_bl.py:1130): the stringified
`blender_file` field of a manifest, `""` when absent or falsy. -/
def get_manifest_blender_file (m : Manifest) : String :=
  let v := pyGet m "blender_file"
  if truthy v then pyStr v else ""

/-- `manifest_matches_blender_file` (gob_bl.py:313): a manifest matches
a document iff both are non-trivial and the manifest's recorded
`blender_file` path-matches the document. -/
def manifest_matches_blender_file (A : String → String) (manifest : Option Manifest)
    (blender_file : String) : Bool :=
  match manifest with
  | none => false
  | some m =>
      if m = [] || blender_file = "" then false
      else
        let manifest_bl := get_manifest_blender_file m
        manifest_bl != "" && paths_match A manifest_bl blender_file

/-- The filesystem and host-state snapshot consulted by one call of the
Blender-side project directory resolver (gob_bl.py:320).  One field per
helper the resolver calls:
`linkedDir` is `project_dir_from_linked_sp(blender_file, prefs)`,
`bridgeRoot` is `get_bridge_root(prefs)`,
`projectName` is `get_project_name(context)`,
`dirExists` is `Path.exists`,
`manifestAt d` is the composite
`read_manifest(find_project_manifest_path(d))` with `none` for a
missing, unreadable or malformed manifest, and
`findManifestForBlenderFile` is
`find_manifest_for_blender_file(get_candidate_bridge_roots(prefs), f)`
returning the found manifest path. -/
structure BlEnv where
  linkedDir : String → Option (List String)
  bridgeRoot : List String
  projectName : String
  dirExists : List String → Bool
  manifestAt : List String → Option Manifest
  findManifestForBlenderFile : String → Option (List String)

/-- The in-memory `_project_dir_cache` of gob_bl.py: normalized document
key to project directory. -/
abbrev DirCache := List (String × List String)

/-- `project_dir_cache_key` (gob_bl.py:292): normalized key of a
document path, `""` for an empty path. -/
def project_dir_cache_key (A : String → String) (blender_file : String) : String :=
  if blender_file = "" then "" else normalize_path_key A blender_file

/-- Association-list read for the directory cache. -/
def cacheGet (c : DirCache) (k : String) : Option (List String) :=
  match c with
  | [] => none
  | (k', v) :: rest => if k' = k then some v else cacheGet rest k

/-- Association-list upsert for the directory cache. -/
def cacheSet (c : DirCache) (k : String) (v : List String) : DirCache :=
  match c with
  | [] => [(k, v)]
  | (k', v') :: rest => if k' = k then (k, v) :: rest else (k', v') :: cacheSet rest k v

/-- `cached_project_dir` (gob_bl.py:298): cache hit for a document
identity, `none` on an empty key. -/
def cached_project_dir (A : String → String) (c : DirCache) (blender_file : String) :
    Option (List String) :=
  let key := project_dir_cache_key A blender_file
  if key = "" then none else cacheGet c key

/-- `set_cached_project_dir` (gob_bl.py:306): record a resolved
directory under the document's normalized key; no-op on an empty key. -/
def set_cached_project_dir (A : String → String) (c : DirCache) (blender_file : String)
    (project_dir : List String) : DirCache :=
  let key := project_dir_cache_key A blender_file
  if key = "" then c else cacheSet c key project_dir

/-- The suffix-search loop of `unique_project_dir` (gob_bl.py:351):
try `base_name1`, `base_name2`, ... under `root`; an existing candidate
is reused only when its manifest matches the document, the first
non-existing candidate is allocated.  The Python loop is unbounded
(`while True`); `fuel` bounds it here and `none` models
non-termination, which on a real filesystem cannot occur. -/
def unique_dir_loop (A : String → String) (e : BlEnv) (root : List String)
    (base_name : String) (blender_file : String) : Nat → Nat → Option (List String)
  | 0, _ => none
  | fuel + 1, index =>
      let candidate := root ++ [base_name ++ toString index]
      if e.dirExists candidate then
        if blender_file != "" &&
            manifest_matches_blender_file A (e.manifestAt candidate) blender_file then
          some candidate
        else
          unique_dir_loop A e root base_name blender_file fuel (index + 1)
      else
        some candidate

/-- `unique_project_dir` (gob_bl.py:351): reuse `base_dir` when it does
not exist yet or its manifest matches the document, else search
suffixed siblings. -/
def unique_project_dir (fuel : Nat) (A : String → String) (e : BlEnv)
    (base_dir : List String) (blender_file : String) : Option (List String) :=
  if !e.dirExists base_dir then some base_dir
  else if blender_file != "" &&
      manifest_matches_blender_file A (e.manifestAt base_dir) blender_file then
    some base_dir
  else
    unique_dir_loop A e base_dir.dropLast (base_dir.getLastD "") blender_file fuel 1

/-- The cache-miss body of `resolve_project_dir_for_blender`
(gob_bl.py:320): the link-registry route
(`project_dir_from_linked_sp`) first; then the natural directory under
the bridge root, reused only when it exists and its manifest matches
the document; then a cross-root manifest search; else a freshly
disambiguated directory from `unique_project_dir`; for an empty
identity, the natural directory unconditionally.  `none` only when the
unbounded suffix search runs out of fuel. -/
def resolve_project_dir_steps (fuel : Nat) (A : String → String) (e : BlEnv)
    (blender_file : String) : Option (List String) :=
  match (if blender_file ≠ "" then e.linkedDir blender_file else none) with
  | some linked_dir => some linked_dir
  | none =>
    let base_dir := e.bridgeRoot ++ [e.projectName]
    if blender_file ≠ "" && e.dirExists base_dir &&
        manifest_matches_blender_file A (e.manifestAt base_dir) blender_file then
      some base_dir
    else if blender_file ≠ "" then
      match e.findManifestForBlenderFile blender_file with
      | some manifest_path => some (project_dir_from_manifest_path manifest_path)
      | none => unique_project_dir fuel A e base_dir blender_file
    else
      some base_dir

/-- The caching wrapper of `resolve_project_dir_for_blender`: cache hit
returns immediately, otherwise the computed directory is recorded via
`set_cached_project_dir` and returned.  In the Python source the
`set_cached_project_dir` call appears inside each returning branch and
is absent only from the `return base_dir` branch for an empty identity;
since `set_cached_project_dir` is a no-op exactly when the identity's
cache key is empty, hoisting the single call here is behaviourally
identical. -/
def resolve_project_dir_for_blender (fuel : Nat) (A : String → String) (e : BlEnv)
    (cache : DirCache) (blender_file : String) :
    Option (List String × DirCache) :=
  match cached_project_dir A cache blender_file with
  | some cached => some (cached, cache)
  | none =>
    match resolve_project_dir_steps fuel A e blender_file with
    | some project_dir =>
        some (project_dir, set_cached_project_dir A cache blender_file project_dir)
    | none => none

/-- `manifest_timestamp` (gob_sp.py:4202): the effective timestamp of a
manifest is its `auto_import_at` field when numeric, else its
`timestamp` field when numeric, else the manifest file's mtime
(`mtime` returns `none` on `OSError`, which yields `0.0`). -/
def manifest_timestamp (mtime : List String → Option Int) (m : Manifest)
    (manifest_path : List String) : Int :=
  match asPyNumber (pyGet m "auto_import_at") with
  | some v => v
  | none =>
    match asPyNumber (pyGet m "timestamp") with
    | some v => v
    | none => (mtime manifest_path).getD 0

/-- Host-application state consulted by `manifest_targets_current_project`
(gob_sp.py:4214):
`isOpen` is `sp.project.is_open()`,
`spProjectFile` is `get_sp_project_file_path_or_temp()`,
`currentDir` is `get_project_dir()` with `none` for an exception, and
`currentName` is `get_project_name()`. -/
structure SpHostState where
  isOpen : Bool
  spProjectFile : String
  currentDir : Option (List String)
  currentName : String

/-- `manifest_targets_current_project` (gob_sp.py:4214): with no project
open every manifest targets the current project; otherwise the manifest
targets it when its recorded texturing-document path matches the open
one, else when both project directories are known and equal, else when
both sanitized project names are known and equal case-insensitively;
otherwise it is foreign. -/
def manifest_targets_current_project (A : String → String) (host : SpHostState)
    (m : Manifest) (manifest_path : Option (List String)) : Bool :=
  if !host.isOpen then true
  else
    let manifest_sp_file := pyOr (pyGet m "sp_project_file") (pyGet m "sp_project_path")
    if host.spProjectFile ≠ "" && truthy manifest_sp_file &&
        paths_match A host.spProjectFile (pyStr manifest_sp_file) then true
    else
      let manifest_dir := manifest_path.map project_dir_from_manifest_path
      match host.currentDir, manifest_dir with
      | some current_dir, some mdir => current_dir == mdir
      | _, _ =>
        let g := pyGet m "project"
        let manifest_name := sanitize_name (if truthy g then pyStr g else "")
        if host.currentName ≠ "" && manifest_name ≠ "" then
          pyLower host.currentName == pyLower manifest_name
        else false

/-- `AUTO_IMPORT_SCAN_COOLDOWN` (gob_sp.py:4881). -/
def AUTO_IMPORT_SCAN_COOLDOWN : Int := 5

/-- `AUTO_IMPORT_ACTIVE_WRITE_INTERVAL` (gob_sp.py:4882). -/
def AUTO_IMPORT_ACTIVE_WRITE_INTERVAL : Int := 5

/-- The module globals of gob_sp.py's auto-import machinery:
`_auto_import_last_time`, `_auto_import_last_path`,
`_auto_import_in_progress`, `_auto_import_busy_until` (`0` = unset),
`_auto_import_last_scan` and `_auto_import_last_active_write`. -/
structure PollState where
  lastTime : Int
  lastPath : Option (List String)
  inProgress : Bool
  busyUntil : Int
  lastScan : Int
  lastActiveWrite : Int
  deriving DecidableEq, Repr

/-- Filesystem and host snapshot consulted by one tick of
`_auto_import_poll` (gob_sp.py:4909):
`activeBlender` is `find_active_blender_info()`,
`findProjectManifestPath d` is
`find_project_manifest_path(d)` restricted to an existing file,
`readManifest` is `read_manifest`,
`findLatestManifest` is
`find_latest_manifest(get_candidate_bridge_roots(), source="blender")`,
`mtime` is `Path.stat().st_mtime` with `none` on `OSError`,
`host` is the open-project state, and `ownToken` is the module global
`_force_new_token`. -/
structure PollEnv where
  activeBlender : Option ActiveInfo
  findProjectManifestPath : List String → Option (List String)
  readManifest : List String → Option Manifest
  findLatestManifest : Option (List String)
  mtime : List String → Option Int
  host : SpHostState
  ownToken : String

/-- The heartbeat-directed manifest candidate of `_auto_import_poll`
(gob_sp.py:4925): the manifest in the active Blender session's
project directory, accepted only when readable, non-empty, produced by
the Blender side and carrying a truthy `auto_import` flag. -/
def heartbeat_candidate (env : PollEnv) : Option (List String × Manifest) :=
  match env.activeBlender with
  | none => none
  | some info =>
    match info.project_dir with
    | none => none
    | some project_dir =>
      match env.findProjectManifestPath project_dir with
      | none => none
      | some candidate_path =>
        match env.readManifest candidate_path with
        | none => none
        | some m =>
            if m ≠ [] && pyGet m "source" == JVal.str "blender" &&
                truthy (pyGet m "auto_import") then
              some (candidate_path, m)
            else none

/-- One poll tick's outcome: the updated module globals, the manifest
(path and content) the tick settled on (`none` when it bailed out
earlier), and the manifest path passed to
`import_from_blender(manifest_path, clear_auto_import=True)` (`none`
when the tick returned without invoking the import). -/
structure PollResult where
  state : PollState
  observed : Option (List String × Manifest)
  action : Option (List String)
  deriving DecidableEq, Repr

/-- The decision tail of `_auto_import_poll` (gob_sp.py:4948) run once a
fresh `auto_import` manifest has been found: reject an unaccepted
force-new manifest, reject a foreign manifest while a project is open,
skip a manifest already acted on (same path, timestamp not newer),
otherwise invoke the import.  `importLeavesInProgress` tells whether
`import_from_blender` returned with `_auto_import_in_progress` still
set (an asynchronous reload pending); only a completed import records
the acted-on path and timestamp. -/
def poll_decide (A : String → String) (env : PollEnv) (s : PollState) (p : List String)
    (m : Manifest) (importLeavesInProgress : Bool) : PollResult :=
  let ts := manifest_timestamp env.mtime m p
  if truthy (pyGet m "force_new_project") &&
      !should_accept_force_new_manifest env.ownToken env.host.isOpen m then
    ⟨s, some (p, m), none⟩
  else if !truthy (pyGet m "force_new_project") && env.host.isOpen &&
      !manifest_targets_current_project A env.host m (some p) then
    ⟨s, some (p, m), none⟩
  else if s.lastPath == some p && ts ≤ s.lastTime then
    ⟨s, some (p, m), none⟩
  else if importLeavesInProgress then
    ⟨{ s with inProgress := true }, some (p, m), some p⟩
  else
    ⟨{ s with lastTime := ts, lastPath := some p }, some (p, m), some p⟩

/-- `_auto_import_poll` (gob_sp.py:4909): refresh the heartbeat on its
interval, bail out while an import is in progress or during the busy
backoff, find a fresh Blender `auto_import` manifest (heartbeat-directed
first, cross-root scan under its own cooldown second), and hand it to
the decision tail.  The import's possible busy-backoff write to
`_auto_import_busy_until` is not tracked: it only suppresses later
ticks further. -/
def auto_import_poll (A : String → String) (env : PollEnv) (s0 : PollState) (now : Int)
    (importLeavesInProgress : Bool) : PollResult :=
  let s := if now - s0.lastActiveWrite ≥ AUTO_IMPORT_ACTIVE_WRITE_INTERVAL then
      { s0 with lastActiveWrite := now }
    else s0
  if s.inProgress then ⟨s, none, none⟩
  else if s.busyUntil ≠ 0 && now < s.busyUntil then ⟨s, none, none⟩
  else
    match heartbeat_candidate env with
    | some (p, m) => poll_decide A env s p m importLeavesInProgress
    | none =>
      if now - s.lastScan < AUTO_IMPORT_SCAN_COOLDOWN then ⟨s, none, none⟩
      else
        let s := { s with lastScan := now }
        match env.findLatestManifest with
        | none => ⟨s, none, none⟩
        | some p =>
          match env.readManifest p with
          | none => ⟨s, none, none⟩
          | some m =>
            if m = [] || !truthy (pyGet m "auto_import") then ⟨s, none, none⟩
            else poll_decide A env s p m importLeavesInProgress

/-- Reading back the key just set yields the new value. -/
theorem pyGet_pySet_same (m : Manifest) (k : String) (v : JVal) :
    pyGet (pySet m k v) k = v := by
  induction m with
  | nil => simp [pySet, pyGet]
  | cons hd tl ih =>
      obtain ⟨k', v'⟩ := hd
      by_cases h : k' = k <;> simp [pySet, pyGet, h, ih]

/-- Setting one key leaves every other key's value unchanged. -/
theorem pyGet_pySet_other (m : Manifest) (k k' : String) (v : JVal) (h : k' ≠ k) :
    pyGet (pySet m k v) k' = pyGet m k' := by
  induction m with
  | nil => simp [pySet, pyGet, Ne.symm h]
  | cons hd tl ih =>
      obtain ⟨k₀, v₀⟩ := hd
      by_cases h0 : k₀ = k
      · subst h0
        simp [pySet, pyGet, Ne.symm h]
      · simp [pySet, pyGet, h0, ih]

/-- An empty dictionary has no truthy field. -/
theorem truthy_pyGet_nil (k : String) : truthy (pyGet [] k) = false := rfl

/-- Claim C10: clearing the hand-off marker is frame-preserving.  For a
manifest with a truthy `auto_import`, `clear_auto_import_flag` rewrites
the manifest file with `auto_import` set to `False` and every other
key/value pair unchanged; when `auto_import` is absent or falsy, or the
manifest path is absent, no file write happens at all. -/
theorem clear_auto_import_frame :
    ∀ (p : List String) (m : Manifest),
      (truthy (pyGet m "auto_import") = true →
        clear_auto_import_flag (some p) m =
          some (p, pySet m "auto_import" (.bool false)) ∧
        pyGet (pySet m "auto_import" (.bool false)) "auto_import" = .bool false ∧
        (∀ k, k ≠ "auto_import" →
          pyGet (pySet m "auto_import" (.bool false)) k = pyGet m k)) ∧
      (truthy (pyGet m "auto_import") = false →
        clear_auto_import_flag (some p) m = none) ∧
      clear_auto_import_flag none m = none := by
  intro p m
  refine ⟨fun h => ⟨?_, pyGet_pySet_same m _ _, fun k hk => pyGet_pySet_other m _ _ _ hk⟩,
    fun h => ?_, rfl⟩
  · have hm : m ≠ [] := by
      intro he
      rw [he, truthy_pyGet_nil] at h
      exact Bool.false_ne_true h
    simp [clear_auto_import_flag, hm, h, write_manifest]
  · simp [clear_auto_import_flag, h]

/-- Witness for C10 at a concrete manifest: the flag is cleared, the
other fields survive, and a falsy flag suppresses the write. -/
theorem clear_auto_import_frame_witness :
    clear_auto_import_flag (some ["R", "bridge.json"])
        [("source", .str "blender"), ("auto_import", .bool true), ("timestamp", .num 7)] =
      some (["R", "bridge.json"],
        [("source", .str "blender"), ("auto_import", .bool false), ("timestamp", .num 7)]) ∧
    clear_auto_import_flag (some ["R", "bridge.json"])
        [("source", .str "blender"), ("auto_import", .bool false)] = none := by
  refine ⟨?_, ?_⟩
  · have h := ((clear_auto_import_frame ["R", "bridge.json"]
      [("source", .str "blender"), ("auto_import", .bool true), ("timestamp", .num 7)]).1
      (by decide)).1
    rw [h]; rfl
  · exact (clear_auto_import_frame ["R", "bridge.json"]
      [("source", .str "blender"), ("auto_import", .bool false)]).2.1 (by decide)

/-- Claim C8: a missing manifest file, an unreadable one and malformed
JSON text all degrade to "no manifest" — but a manifest file whose
bytes are not valid UTF-8 raises `UnicodeDecodeError` out of
`read_manifest`, because the handler catches only `OSError` and
`json.JSONDecodeError`, contradicting the claim that reading never
raises to the caller. -/
theorem read_manifest_unicode_bug :
    read_manifest .missing = .ok none ∧
    read_manifest .ioError = .ok none ∧
    read_manifest (.jsonText none) = .ok none ∧
    read_manifest .invalidUtf8 = .error .unicodeDecodeError :=
  ⟨rfl, rfl, rfl, rfl⟩

/-- Claim C2: force-new isolation.  For a manifest with
`force_new_project` set and a non-empty (stripped) token `T`, the
receiving instance accepts it exactly when its own launch-time token
equals `T` or no project is currently open; in particular an instance
with a project open and a different or absent own token rejects it. -/
theorem force_new_isolation :
    ∀ (m : Manifest) (ownToken : String) (isOpen : Bool) (T : String),
      truthy (pyGet m "force_new_project") = true →
      manifest_force_new_token m = T →
      T ≠ "" →
      (should_accept_force_new_manifest ownToken isOpen m = true ↔
        (ownToken = T ∨ isOpen = false)) := by
  intro m ownToken isOpen T _ htok hT
  subst htok
  simp only [should_accept_force_new_manifest]
  generalize hg : manifest_force_new_token m = t
  rw [hg] at hT
  rw [if_pos (show (t != "") = true by simp [hT])]
  by_cases hc : ownToken = t
  · rw [if_pos (show (ownToken != "" && t == ownToken) = true by simp [hc, hT])]
    simp [hc]
  · rw [if_neg (show ¬(ownToken != "" && t == ownToken) = true by simp [Ne.symm hc])]
    cases isOpen <;> simp [hc]

/-- Witness for C2: a manifest carrying token `"tok1"` is accepted by
an open instance whose own token is `"tok1"`, and the acceptance
condition is exactly token equality or no open project. -/
theorem force_new_isolation_witness :
    should_accept_force_new_manifest "tok1" true
        [("force_new_project", .bool true), ("force_new_token", .str "tok1")] = true ↔
      ("tok1" = "tok1" ∨ true = false) :=
  force_new_isolation [("force_new_project", .bool true), ("force_new_token", .str "tok1")]
    "tok1" true "tok1" (by decide) (by decide) (by decide)

/-- Invariant-carrying soundness of the heartbeat accumulator loop: if
the running best is fresh, any final answer is fresh. -/
theorem find_active_loop_sound (now : Int) :
    ∀ (entries : List (Option ActiveInfo)) (best : Option ActiveInfo) (bt : Int)
      (r : ActiveInfo),
      0 ≤ bt →
      (∀ r', best = some r' → r'.timestamp = bt ∧ 0 < bt ∧ now - r'.timestamp ≤ 120) →
      find_active_loop now 120 entries best bt = some r →
      0 < r.timestamp ∧ now - r.timestamp ≤ 120 := by
  intro entries
  induction entries with
  | nil =>
      intro best bt r _ hinv hres
      obtain ⟨h1, h2, h3⟩ := hinv r hres
      exact ⟨h1 ▸ h2, h3⟩
  | cons e rest ih =>
      intro best bt r hbt hinv hres
      match e with
      | none => exact ih best bt r hbt hinv hres
      | some info =>
          simp only [find_active_loop] at hres
          by_cases hskip :
              ((120 : Int) != 0 && info.timestamp != 0 && decide (now - info.timestamp > 120)) = true
          · rw [if_pos hskip] at hres
            exact ih best bt r hbt hinv hres
          · rw [if_neg hskip] at hres
            by_cases hgt : info.timestamp > bt
            · rw [if_pos hgt] at hres
              have hpos : 0 < info.timestamp := lt_of_le_of_lt hbt hgt
              have hfresh : now - info.timestamp ≤ 120 := by
                by_contra hstale
                apply hskip
                simp only [Bool.and_eq_true, bne_iff_ne, ne_eq, decide_eq_true_eq]
                exact ⟨⟨by norm_num, hpos.ne'⟩, lt_of_not_le hstale⟩
              exact ih (some info) info.timestamp r hpos.le
                (fun r' hr' => by
                  cases hr'
                  exact ⟨rfl, hpos, hfresh⟩) hres
            · rw [if_neg hgt] at hres
              exact ih best bt r hbt hinv hres

/-- Claim C3 (amended): the heartbeat lookup with `max_age = 120` never
returns a record whose age `now - ts` exceeds 120 — every returned
record moreover has a strictly positive timestamp — and a record with a
positive timestamp and age below 120 is returned when it is the
candidate; the original claim's "written at t=0" example fails because
a record with timestamp exactly 0 is treated as carrying no usable
timestamp and is never selected. -/
theorem heartbeat_staleness_amended :
    (∀ (entries : List (Option ActiveInfo)) (now : Int) (r : ActiveInfo),
        find_active_blender_info entries now = some r →
        0 < r.timestamp ∧ now - r.timestamp ≤ 120) ∧
    (∀ (r : ActiveInfo) (now : Int),
        0 < r.timestamp → now - r.timestamp < 120 →
        find_active_blender_info [some r] now = some r) := by
  constructor
  · intro entries now r hres
    exact find_active_loop_sound now entries none 0 r (le_refl 0)
      (fun r' hr' => by cases hr') hres
  · intro r now hpos hfresh
    have hng : ¬(now - r.timestamp > 120) := by omega
    unfold find_active_blender_info ACTIVE_INFO_MAX_AGE
    rw [show find_active_loop now 120 [some r] none 0 =
          (if (120 : Int) != 0 && r.timestamp != 0 && decide (now - r.timestamp > 120) then
            find_active_loop now 120 [] none 0
          else if r.timestamp > 0 then find_active_loop now 120 [] (some r) r.timestamp
          else find_active_loop now 120 [] none 0) from rfl]
    rw [decide_eq_false hng, Bool.and_false, if_neg (by simp), if_pos hpos]
    rfl

/-- Witness for C3 at concrete inputs: a heartbeat with timestamp 1
read at time 119 is returned and is fresh. -/
theorem heartbeat_staleness_witness :
    find_active_blender_info [some ⟨1, none, none, none⟩] 119 =
        some ⟨1, none, none, none⟩ ∧
    (0 < (1 : Int) ∧ (119 : Int) - 1 ≤ 120) :=
  ⟨heartbeat_staleness_amended.2 ⟨1, none, none, none⟩ 119 (by decide) (by decide),
   heartbeat_staleness_amended.1 [some ⟨1, none, none, none⟩] 119 ⟨1, none, none, none⟩
     (heartbeat_staleness_amended.2 ⟨1, none, none, none⟩ 119 (by decide) (by decide))⟩

/-- Counterexample to C3 as stated: a heartbeat written at `t = 0` read
at `now = 119` has age `119 < 120`, yet the lookup ignores it — Python
treats the `0.0` timestamp as falsy, skips the staleness filter, and
the best-candidate comparison `ts > best_time` with `best_time = 0.0`
never selects it. -/
theorem heartbeat_staleness_counterexample :
    find_active_blender_info [some ⟨0, none, none, none⟩] 119 = none ∧
    (119 : Int) - 0 < 120 := by
  constructor
  · rfl
  · decide

/-- Claim C4: link-registry round-trip.  From the empty registry,
`update(A, B)` makes the forward lookup of `A` return `B` and the
backward lookup of `B` return `A`; a later `update(A, C)` with the
reverse write suppressed makes the forward lookup of `A` return `C`
while the backward lookup of `C` stays empty.  `a`, `b`, `c` are
non-empty paths and `c` does not collide with `b` under key
normalization. -/
theorem link_registry_roundtrip :
    ∀ (A : String → String) (a b c : String),
      a ≠ "" → b ≠ "" → c ≠ "" →
      normalize_path_key A c ≠ normalize_path_key A b →
      lookup_sp_to_blender A (update_link_registry A Registry.empty a b) a = some b ∧
      lookup_blender_to_sp A (update_link_registry A Registry.empty a b) b = some a ∧
      lookup_sp_to_blender A
        (update_link_registry A (update_link_registry A Registry.empty a b) a c false) a =
        some c ∧
      lookup_blender_to_sp A
        (update_link_registry A (update_link_registry A Registry.empty a b) a c false) c =
        none := by
  intro A a b c ha hb hc hcb
  simp only [update_link_registry, Registry.empty, ha, hb, hc,
    lookup_sp_to_blender, lookup_blender_to_sp]
  simp only [assocSet, assocGet]
  refine ⟨by simp, by simp, by simp, by simp [Ne.symm hcb]⟩

/-- Witness for C4 at concrete paths with the identity as path
normalization. -/
theorem link_registry_roundtrip_witness :
    lookup_sp_to_blender id (update_link_registry id Registry.empty "/p/a.spp" "/p/b.blend")
        "/p/a.spp" = some "/p/b.blend" ∧
    lookup_blender_to_sp id (update_link_registry id Registry.empty "/p/a.spp" "/p/b.blend")
        "/p/b.blend" = some "/p/a.spp" ∧
    lookup_sp_to_blender id
        (update_link_registry id
          (update_link_registry id Registry.empty "/p/a.spp" "/p/b.blend")
          "/p/a.spp" "/p/c.blend" false) "/p/a.spp" = some "/p/c.blend" ∧
    lookup_blender_to_sp id
        (update_link_registry id
          (update_link_registry id Registry.empty "/p/a.spp" "/p/b.blend")
          "/p/a.spp" "/p/c.blend" false) "/p/c.blend" = none :=
  link_registry_roundtrip id "/p/a.spp" "/p/b.blend" "/p/c.blend"
    (by decide) (by decide) (by decide) (by decide)

/-- Claim C9 (amended): the texturing side's `get_bridge_root` follows
the precedence environment override, then hint file (per-user location
before the shared cross-user location), then expanded platform default;
the mesh-editor side's `get_bridge_root` instead follows environment
override, then the add-on preference `bridge_dir`, then the platform
default, and never consults a hint file. -/
theorem bridge_root_precedence_amended :
    ∀ (e : SpRootEnv) (b : BlRootEnv),
      (∀ s, e.envVar = some s → s ≠ "" → sp_get_bridge_root e = e.expand s) ∧
      ((e.envVar = none ∨ e.envVar = some "") →
        (∀ h, read_bridge_root_hint e.expand e.perUserHint e.sharedHint = some h →
          sp_get_bridge_root e = h) ∧
        (read_bridge_root_hint e.expand e.perUserHint e.sharedHint = none →
          sp_get_bridge_root e = e.expand e.defaultDir)) ∧
      (∀ r r', r ≠ "" →
        read_bridge_root_hint e.expand (.record r) (.record r') = some (e.expand r)) ∧
      (∀ s, b.envVar = some s → s ≠ "" → bl_get_bridge_root b = b.expand s) ∧
      ((b.envVar = none ∨ b.envVar = some "") →
        ∀ p, b.prefsBridgeDir = some p → p ≠ "" →
          bl_get_bridge_root b = b.expand p) ∧
      ((b.envVar = none ∨ b.envVar = some "") →
        (b.prefsBridgeDir = none ∨ b.prefsBridgeDir = some "") →
        bl_get_bridge_root b = b.expand b.defaultDir) := by
  intro e b
  refine ⟨?_, ?_, ?_, ?_, ?_, ?_⟩
  · intro s hs hne
    simp [sp_get_bridge_root, hs, hne]
  · intro henv
    constructor
    · intro h hh
      rcases henv with h0 | h0 <;> simp [sp_get_bridge_root, h0, hh]
    · intro hh
      rcases henv with h0 | h0 <;> simp [sp_get_bridge_root, h0, hh]
  · intro r r' hr
    simp [read_bridge_root_hint, hr]
  · intro s hs hne
    simp [bl_get_bridge_root, hs, hne]
  · intro henv p hp hpne
    rcases henv with h0 | h0 <;> simp [bl_get_bridge_root, h0, hp, hpne]
  · intro henv hpref
    rcases henv with h0 | h0 <;> rcases hpref with h1 | h1 <;>
      simp [bl_get_bridge_root, h0, h1]

/-- Witness for C9 at concrete environments: the texturing side obeys
override, hint and default precedence; the mesh-editor side obeys
override, preference and default precedence. -/
theorem bridge_root_precedence_witness :
    sp_get_bridge_root ⟨some "/env/root", .record "/hint/root", .absent, "/default", id⟩ =
        "/env/root" ∧
    sp_get_bridge_root ⟨none, .record "/hint/root", .absent, "/default", id⟩ =
        "/hint/root" ∧
    sp_get_bridge_root ⟨none, .absent, .absent, "/default", id⟩ = "/default" ∧
    bl_get_bridge_root ⟨none, some "/prefs/root", "/default", id⟩ = "/prefs/root" ∧
    bl_get_bridge_root ⟨none, none, "/default", id⟩ = "/default" := by
  refine ⟨?_, ?_, ?_, ?_, ?_⟩
  · exact (bridge_root_precedence_amended
      ⟨some "/env/root", .record "/hint/root", .absent, "/default", id⟩
      ⟨none, none, "/default", id⟩).1 "/env/root" rfl (by decide)
  · exact ((bridge_root_precedence_amended
      ⟨none, .record "/hint/root", .absent, "/default", id⟩
      ⟨none, none, "/default", id⟩).2.1 (Or.inl rfl)).1 "/hint/root" rfl
  · exact ((bridge_root_precedence_amended
      ⟨none, .absent, .absent, "/default", id⟩
      ⟨none, none, "/default", id⟩).2.1 (Or.inl rfl)).2 rfl
  · exact (bridge_root_precedence_amended
      ⟨none, .absent, .absent, "/default", id⟩
      ⟨none, some "/prefs/root", "/default", id⟩).2.2.2.2.1 (Or.inl rfl)
      "/prefs/root" rfl (by decide)
  · exact (bridge_root_precedence_amended
      ⟨none, .absent, .absent, "/default", id⟩
      ⟨none, none, "/default", id⟩).2.2.2.2.2 (Or.inl rfl) (Or.inl rfl)

/-- Counterexample to C9 as stated: with no environment override and no
preference set, a per-user hint file recording `/shared/bridge` is
readable by the hint reader, yet the mesh-editor side's
`get_bridge_root` returns the platform default — that side never
consults the hint file, so "on each side ... otherwise the root
recorded in a previously written hint file" fails. -/
theorem bridge_root_precedence_counterexample :
    read_bridge_root_hint id (.record "/shared/bridge") .absent = some "/shared/bridge" ∧
    bl_get_bridge_root ⟨none, none, "/home/user/Documents/GoB_SP_Bridge", id⟩ =
      "/home/user/Documents/GoB_SP_Bridge" ∧
    "/home/user/Documents/GoB_SP_Bridge" ≠ "/shared/bridge" := by
  refine ⟨rfl, rfl, by decide⟩

/-- Reading back the cache key just set yields the new directory. -/
theorem cacheGet_cacheSet_same (c : DirCache) (k : String) (v : List String) :
    cacheGet (cacheSet c k v) k = some v := by
  induction c with
  | nil => simp [cacheSet, cacheGet]
  | cons hd tl ih =>
      obtain ⟨k', v'⟩ := hd
      by_cases h : k' = k <;> simp [cacheSet, cacheGet, h, ih]

/-- Every successful resolver call with a usable cache key leaves the
returned directory recorded in the returned cache (gob_bl.py:320: all
success branches for a non-empty identity call
`set_cached_project_dir` before returning, or hit the cache). -/
theorem resolve_caches_result (fuel : Nat) (A : String → String) (e : BlEnv)
    (cache : DirCache) (bf : String) (r1 : List String) (c1 : DirCache)
    (hkey : project_dir_cache_key A bf ≠ "")
    (h : resolve_project_dir_for_blender fuel A e cache bf = some (r1, c1)) :
    cached_project_dir A c1 bf = some r1 := by
  unfold resolve_project_dir_for_blender at h
  split at h
  · next cached hc =>
      simp only [Option.some.injEq, Prod.mk.injEq] at h
      obtain ⟨rfl, rfl⟩ := h
      exact hc
  · next hc =>
      split at h
      · next pd hpd =>
          simp only [Option.some.injEq, Prod.mk.injEq] at h
          obtain ⟨rfl, rfl⟩ := h
          simp [cached_project_dir, set_cached_project_dir, hkey, cacheGet_cacheSet_same]
      · exact absurd h (by simp)

/-- Claim C5: directory identity.  For a non-empty document identity
(a real saved path or the temporary placeholder path, both of which
normalize to a non-empty cache key), a second resolver call in the same
process returns exactly the directory and cache of the first call, even
when every filesystem- or host-dependent input (`e2`) has changed in
between: the first call records the directory in the in-memory cache
and the second call hits that cache before touching the filesystem. -/
theorem resolver_directory_identity :
    ∀ (fuel1 fuel2 : Nat) (A : String → String) (e1 e2 : BlEnv) (cache : DirCache)
      (blender_file : String) (r1 : List String) (c1 : DirCache),
      blender_file ≠ "" →
      project_dir_cache_key A blender_file ≠ "" →
      resolve_project_dir_for_blender fuel1 A e1 cache blender_file = some (r1, c1) →
      resolve_project_dir_for_blender fuel2 A e2 c1 blender_file = some (r1, c1) := by
  intro fuel1 fuel2 A e1 e2 cache bf r1 c1 _ hkey h1
  have hcache := resolve_caches_result fuel1 A e1 cache bf r1 c1 hkey h1
  unfold resolve_project_dir_for_blender
  rw [hcache]

/-- A resolver environment with an empty bridge root, for exercising
the resolver at concrete inputs. -/
def blenvFresh : BlEnv :=
  ⟨fun _ => none, ["R"], "doc", fun _ => false, fun _ => none, fun _ => none⟩

/-- A resolver environment representing a later filesystem state in
which the natural directory exists and holds a manifest recording the
document `/a/doc.blend`. -/
def blenvAfterExport : BlEnv :=
  ⟨fun _ => none, ["R"], "doc", fun d => d == ["R", "doc"],
   fun d => if d == ["R", "doc"] then some [("blender_file", JVal.str "/a/doc.blend")]
     else none,
   fun _ => none⟩

/-- Witness for C5: resolving `/a/doc.blend` against the empty bridge
root allocates `R/doc` and caches it; re-resolving after the
filesystem has changed (directory now exists with a manifest) still
returns `R/doc` from the cache. -/
theorem resolver_directory_identity_witness :
    resolve_project_dir_for_blender 1 id blenvAfterExport
        [("/a/doc.blend", ["R", "doc"])] "/a/doc.blend" =
      some (["R", "doc"], [("/a/doc.blend", ["R", "doc"])]) :=
  resolver_directory_identity 1 1 id blenvFresh blenvAfterExport [] "/a/doc.blend"
    ["R", "doc"] [("/a/doc.blend", ["R", "doc"])] (by decide) (by decide) (by decide)

/-- The suffix-search loop only ever returns a directory that does not
exist yet or whose manifest matches the document. -/
theorem unique_dir_loop_sound (A : String → String) (e : BlEnv) (root : List String)
    (base_name : String) (bf : String) :
    ∀ (fuel idx : Nat) (d : List String),
      unique_dir_loop A e root base_name bf fuel idx = some d →
      e.dirExists d = false ∨
        manifest_matches_blender_file A (e.manifestAt d) bf = true := by
  intro fuel
  induction fuel with
  | zero =>
      intro idx d h
      simp [unique_dir_loop] at h
  | succ n ih =>
      intro idx d h
      simp only [unique_dir_loop] at h
      split at h
      · split at h
        · next hmatch =>
            simp only [Option.some.injEq] at h
            subst h
            exact Or.inr (by simp only [Bool.and_eq_true] at hmatch; exact hmatch.2)
        · exact ih (idx + 1) d h
      · next hex =>
          simp only [Option.some.injEq] at h
          subst h
          exact Or.inl (by simpa using hex)

/-- `unique_project_dir` only ever returns a directory that does not
exist yet or whose manifest matches the document (the formal core of
the second half of claim C6). -/
theorem unique_project_dir_sound (fuel : Nat) (A : String → String) (e : BlEnv)
    (base_dir : List String) (bf : String) (d : List String)
    (h : unique_project_dir fuel A e base_dir bf = some d) :
    e.dirExists d = false ∨
      manifest_matches_blender_file A (e.manifestAt d) bf = true := by
  unfold unique_project_dir at h
  split at h
  · next hnd =>
      simp only [Option.some.injEq] at h
      subst h
      exact Or.inl (by simpa using hnd)
  · split at h
    · next hm =>
        simp only [Option.some.injEq] at h
        subst h
        exact Or.inr (by simp only [Bool.and_eq_true] at hm; exact hm.2)
    · exact unique_dir_loop_sound A e base_dir.dropLast (base_dir.getLastD "") bf fuel 1 d h

/-- The cache-miss resolver body, for a never-before-seen non-empty
identity (no registry link, no cross-root manifest hit), only returns a
directory that does not exist yet or whose manifest matches the
identity. -/
theorem resolve_steps_fresh (fuel : Nat) (A : String → String) (e : BlEnv)
    (bf : String) (r : List String)
    (hbf : bf ≠ "")
    (hlink : e.linkedDir bf = none)
    (hfind : e.findManifestForBlenderFile bf = none)
    (h : resolve_project_dir_steps fuel A e bf = some r) :
    e.dirExists r = false ∨
      manifest_matches_blender_file A (e.manifestAt r) bf = true := by
  unfold resolve_project_dir_steps at h
  rw [if_pos hbf, hlink] at h
  simp only [] at h
  split at h
  · next hcond =>
      simp only [Option.some.injEq] at h
      subst h
      exact Or.inr (by simp only [Bool.and_eq_true] at hcond; exact hcond.2)
  · next hcond =>
      rw [hfind] at h
      exact unique_project_dir_sound fuel A e (e.bridgeRoot ++ [e.projectName]) bf r h

/-- Claim C6 (amended): two distinct never-before-seen identities with
the same sanitized name resolve to the same natural directory when
nothing is written between the two calls (see the counterexample); the
distinctness the claim asserts holds as soon as the first identity's
manifest has been written to its resolved directory: a later resolve of
a second identity that has no cache entry, no registry link and no
cross-root manifest hit, against a filesystem in which `r1` exists and
holds a manifest not matching the second identity, returns a directory
distinct from `r1`; moreover the returned directory's own manifest, if
any, matches the second identity (so `unique_project_dir` never returns
a directory whose manifest records a document path matching a different
identity). -/
theorem resolver_disambiguation_amended :
    ∀ (fuel : Nat) (A : String → String) (e : BlEnv) (cache : DirCache)
      (bf2 : String) (r1 r2 : List String) (m1 : Manifest) (c2 : DirCache),
      bf2 ≠ "" →
      cached_project_dir A cache bf2 = none →
      e.linkedDir bf2 = none →
      e.findManifestForBlenderFile bf2 = none →
      e.dirExists r1 = true →
      e.manifestAt r1 = some m1 →
      manifest_matches_blender_file A (some m1) bf2 = false →
      (∀ d, e.dirExists d = false → e.manifestAt d = none) →
      resolve_project_dir_for_blender fuel A e cache bf2 = some (r2, c2) →
      r2 ≠ r1 ∧
        ∀ m, e.manifestAt r2 = some m →
          manifest_matches_blender_file A (some m) bf2 = true := by
  intro fuel A e cache bf2 r1 r2 m1 c2 hbf hcache hlink hfind hex1 hm1 hm1f hcoh h
  unfold resolve_project_dir_for_blender at h
  rw [hcache] at h
  have hsteps : resolve_project_dir_steps fuel A e bf2 = some r2 := by
    revert h
    cases hs : resolve_project_dir_steps fuel A e bf2 <;> intro h
    · simp at h
    · simp only [Option.some.injEq, Prod.mk.injEq] at h
      rw [h.1]
  have hdisj := resolve_steps_fresh fuel A e bf2 r2 hbf hlink hfind hsteps
  rcases hdisj with hne | hmatch
  · refine ⟨fun heq => ?_, fun m hm => ?_⟩
    · rw [heq, hex1] at hne
      cases hne
    · rw [hcoh r2 hne] at hm
      cases hm
  · refine ⟨fun heq => ?_, fun m hm => ?_⟩
    · rw [heq, hm1] at hmatch
      rw [hm1f] at hmatch
      cases hmatch
    · rw [hm] at hmatch
      exact hmatch

/-- Counterexample to C6 as stated: two distinct never-before-seen
identities, `/a/doc.blend` and `/b/doc.blend`, both sanitizing to the
project name `doc`, resolved back to back against an unchanged empty
bridge root (no cache entry, registry link or manifest for either),
receive the SAME directory `R/doc` — the resolver writes nothing to
disk, so the second call finds the natural directory still absent and
allocates it again. -/
theorem resolver_disambiguation_counterexample :
    "/a/doc.blend" ≠ "/b/doc.blend" ∧
    sanitize_name "doc" = "doc" ∧
    resolve_project_dir_for_blender 2 id blenvFresh [] "/a/doc.blend" =
      some (["R", "doc"], [("/a/doc.blend", ["R", "doc"])]) ∧
    resolve_project_dir_for_blender 2 id blenvFresh
        [("/a/doc.blend", ["R", "doc"])] "/b/doc.blend" =
      some (["R", "doc"],
        [("/a/doc.blend", ["R", "doc"]), ("/b/doc.blend", ["R", "doc"])]) := by
  refine ⟨by decide, by decide, by decide, by decide⟩

/-- Witness for C6's amended theorem: once `R/doc` exists with a
manifest recording `/a/doc.blend`, resolving the fresh identity
`/b/doc.blend` allocates the distinct sibling `R/doc1`. -/
theorem resolver_disambiguation_witness :
    resolve_project_dir_for_blender 3 id blenvAfterExport [] "/b/doc.blend" =
      some (["R", "doc1"], [("/b/doc.blend", ["R", "doc1"])]) ∧
    ["R", "doc1"] ≠ ["R", "doc"] := by
  refine ⟨by decide, ?_⟩
  exact (resolver_disambiguation_amended 3 id blenvAfterExport [] "/b/doc.blend"
    ["R", "doc"] ["R", "doc1"] [("blender_file", JVal.str "/a/doc.blend")]
    [("/b/doc.blend", ["R", "doc1"])]
    (by decide) (by decide) (by decide) (by decide) (by decide) (by decide) (by decide)
    (by
      intro d hd
      simp only [blenvAfterExport] at hd ⊢
      simp [hd])
    (by decide)).1

/-- Structural facts about the poll decision tail: it always reports the
manifest it was given as observed, and its action is either no action
or an invocation on exactly that manifest path; a completed invocation
(`importLeavesInProgress = false`) records the manifest's path and
effective timestamp in the module globals. -/
theorem poll_decide_spec (A : String → String) (env : PollEnv) (s : PollState)
    (p : List String) (m : Manifest) (f : Bool) :
    (poll_decide A env s p m f).observed = some (p, m) ∧
    ((poll_decide A env s p m f).action = none ∨
      ((poll_decide A env s p m f).action = some p ∧
        (f = false →
          (poll_decide A env s p m f).state.lastPath = some p ∧
          (poll_decide A env s p m f).state.lastTime =
            manifest_timestamp env.mtime m p))) := by
  simp only [poll_decide]
  split_ifs <;> simp_all

/-- A poll whose module globals already record the observed manifest
path with a timestamp at least the manifest's effective timestamp
performs no action (the idempotence guard at gob_sp.py:4956). -/
theorem poll_decide_guard (A : String → String) (env : PollEnv) (s : PollState)
    (p : List String) (m : Manifest) (f : Bool)
    (hlast : s.lastPath = some p)
    (hts : manifest_timestamp env.mtime m p ≤ s.lastTime) :
    (poll_decide A env s p m f).action = none := by
  simp only [poll_decide]
  split_ifs with h1 h2 h3 h4 <;> first
    | rfl
    | exact absurd (by simp [hlast, hts]) h3

/-- Every poll tick either observes nothing (and acts on nothing) or
hands some manifest to the decision tail, run on a pre-state whose
acted-on markers are those of the incoming state. -/
theorem auto_import_poll_cases (A : String → String) (env : PollEnv) (s0 : PollState)
    (now : Int) (f : Bool) :
    (auto_import_poll A env s0 now f).observed = none ∧
      (auto_import_poll A env s0 now f).action = none ∨
    ∃ s1 p m, s1.lastPath = s0.lastPath ∧ s1.lastTime = s0.lastTime ∧
      auto_import_poll A env s0 now f = poll_decide A env s1 p m f := by
  simp only [auto_import_poll]
  set s1 := if now - s0.lastActiveWrite ≥ AUTO_IMPORT_ACTIVE_WRITE_INTERVAL then
      { s0 with lastActiveWrite := now } else s0 with hs1
  have hpres : s1.lastPath = s0.lastPath ∧ s1.lastTime = s0.lastTime := by
    rw [hs1]
    split <;> exact ⟨rfl, rfl⟩
  repeat' split
  all_goals first
    | exact Or.inl ⟨rfl, rfl⟩
    | exact Or.inr ⟨s1, _, _, hpres.1, hpres.2, rfl⟩
    | exact Or.inr ⟨{ s1 with lastScan := now }, _, _, hpres.1, hpres.2, rfl⟩

/-- Claim C1: poll idempotence.  Once a poll tick has acted on a
manifest and recorded its path and effective timestamp (the `false`
argument says the invoked import completed, so gob_sp.py:4961 records
the markers), every later poll tick that observes the same manifest
path with an effective timestamp not greater than the recorded one
returns without invoking the import, whatever else changed in the
environment in between. -/
theorem poll_idempotence :
    ∀ (A : String → String) (env1 env2 : PollEnv) (s : PollState) (now1 now2 : Int)
      (p : List String) (m m2 : Manifest) (f2 : Bool),
      (auto_import_poll A env1 s now1 false).observed = some (p, m) →
      (auto_import_poll A env1 s now1 false).action = some p →
      (auto_import_poll A env2 (auto_import_poll A env1 s now1 false).state now2
          f2).observed = some (p, m2) →
      manifest_timestamp env2.mtime m2 p ≤ manifest_timestamp env1.mtime m p →
      (auto_import_poll A env2 (auto_import_poll A env1 s now1 false).state now2
          f2).action = none := by
  intro A env1 env2 s now1 now2 p m m2 f2 hobs1 hact1 hobs2 hts
  rcases auto_import_poll_cases A env1 s now1 false with ⟨hn, _⟩ | ⟨s1, p1, m1, _, _, heq1⟩
  · rw [hn] at hobs1
    cases hobs1
  · rw [heq1] at hobs1 hact1
    rw [(poll_decide_spec A env1 s1 p1 m1 false).1] at hobs1
    injection hobs1 with hobs1
    injection hobs1 with hp1 hm1
    rw [hp1, hm1] at heq1 hact1
    rcases (poll_decide_spec A env1 s1 p m false).2 with hnone | ⟨_, hrec⟩
    · rw [hnone] at hact1
      cases hact1
    · obtain ⟨hlp, hlt⟩ := hrec rfl
      rcases auto_import_poll_cases A env2 (auto_import_poll A env1 s now1 false).state
          now2 f2 with ⟨_, hn2⟩ | ⟨s2, p2, m2', hp2, ht2, heq2⟩
      · exact hn2
      · rw [heq2] at hobs2 ⊢
        rw [(poll_decide_spec A env2 s2 p2 m2' f2).1] at hobs2
        injection hobs2 with hobs2
        injection hobs2 with hp2' hm2'
        rw [hp2', hm2']
        apply poll_decide_guard
        · rw [hp2, heq1, hlp]
        · rw [ht2, heq1, hlt]
          exact hts

/-- Witness manifest for the poll theorems: a fresh Blender export with
the hand-off marker set. -/
def pollManifestW : Manifest :=
  [("source", .str "blender"), ("auto_import", .bool true), ("timestamp", .num 100)]

/-- Witness environment for C1: no heartbeat, the cross-root scan finds
one manifest, no project is open. -/
def pollEnvW : PollEnv :=
  ⟨none, fun _ => none,
   fun q => if q == ["R", "bridge.json"] then some pollManifestW else none,
   some ["R", "bridge.json"], fun _ => some 50,
   ⟨false, "", none, ""⟩, ""⟩

/-- Witness for C1 at concrete inputs: the first tick at `now = 10`
invokes the import on the found manifest and records path and
timestamp; the second tick at `now = 20` observes the unchanged
manifest and performs no action. -/
theorem poll_idempotence_witness :
    (auto_import_poll id pollEnvW
        (auto_import_poll id pollEnvW ⟨0, none, false, 0, 0, 0⟩ 10 false).state 20
        false).action = none :=
  poll_idempotence id pollEnvW pollEnvW ⟨0, none, false, 0, 0, 0⟩ 10 20
    ["R", "bridge.json"] pollManifestW pollManifestW false
    (by decide) (by decide) (by decide) (by decide)

/-- Claim C7: foreign-manifest silence.  Whenever the background poll
observes a fresh `auto_import` manifest whose `force_new_project` flag
is unset while a project is open and the manifest does not target the
currently open project, the tick performs no action at all: the import
(the only code path that reloads, creates, clears `auto_import` or
shows a dialog, invoked by the poll with `clear_auto_import=True`) is
not called — and even a direct call would return silently through the
`clear_auto_import` early return at gob_sp.py:4363. -/
theorem poll_foreign_manifest_silence :
    ∀ (A : String → String) (env : PollEnv) (s : PollState) (now : Int) (f : Bool)
      (p : List String) (m : Manifest),
      (auto_import_poll A env s now f).observed = some (p, m) →
      env.host.isOpen = true →
      truthy (pyGet m "force_new_project") = false →
      manifest_targets_current_project A env.host m (some p) = false →
      (auto_import_poll A env s now f).action = none := by
  intro A env s now f p m hobs hopen hforce htarg
  rcases auto_import_poll_cases A env s now f with ⟨_, hn⟩ | ⟨s1, p1, m1, _, _, heq⟩
  · exact hn
  · rw [heq] at hobs ⊢
    rw [(poll_decide_spec A env s1 p1 m1 f).1] at hobs
    injection hobs with hobs
    injection hobs with hp1 hm1
    rw [hp1, hm1]
    have h1 : (truthy (pyGet m "force_new_project") &&
        !should_accept_force_new_manifest env.ownToken env.host.isOpen m) = false := by
      rw [hforce]
      rfl
    have h2 : (!truthy (pyGet m "force_new_project") && env.host.isOpen &&
        !manifest_targets_current_project A env.host m (some p)) = true := by
      rw [hforce, hopen, htarg]
      rfl
    simp only [poll_decide]
    rw [if_neg (by simp [h1]), if_pos h2]

/-- Witness manifest for C7: a fresh Blender export targeting a
texturing document other than the open one. -/
def foreignManifestW : Manifest :=
  [("source", .str "blender"), ("auto_import", .bool true),
   ("sp_project_file", .str "/other/proj.spp"), ("project", .str "otherproj")]

/-- Witness environment for C7: a project is open on `/me/mine.spp` in
project directory `R/mine`; the scan finds a manifest in `R/otherproj`. -/
def foreignEnvW : PollEnv :=
  ⟨none, fun _ => none,
   fun q => if q == ["R", "otherproj", ".gob_meta", "bridge.json"] then
     some foreignManifestW else none,
   some ["R", "otherproj", ".gob_meta", "bridge.json"], fun _ => some 50,
   ⟨true, "/me/mine.spp", some ["R", "mine"], "mine"⟩, ""⟩

/-- Witness for C7 at concrete inputs: the poll observes the foreign
manifest and performs no action. -/
theorem poll_foreign_manifest_silence_witness :
    (auto_import_poll id foreignEnvW ⟨0, none, false, 0, 0, 0⟩ 10 false).action = none :=
  poll_foreign_manifest_silence id foreignEnvW ⟨0, none, false, 0, 0, 0⟩ 10 false
    ["R", "otherproj", ".gob_meta", "bridge.json"] foreignManifestW
    (by decide) (by decide) (by decide) (by decide)
